import Mathlib

/-!
Verification of the `ha_mqtt_discoverable.climate` module.

This file is a shallow embedding of `ha_mqtt_discoverable/climate.py`: the
capability flags, the entity model, `Climate.__init__`'s default installation,
`Climate.generate_config` and its inner `addStateTopic` / `addCommandTopic`
helpers, the `set_*` state operations with `_capability_state_helper`, and the
`on_client_connected` subscription/callback routing.

Python dictionaries are embedded as ordered association lists with
overwrite-in-place insertion (matching `dict` assignment semantics); Python
exceptions are embedded as an explicit error component of each call's result.
The external base class (`Discoverable`, `Settings`) and the MQTT transport
are excluded collaborators per the specification; the few facts about them the
module relies on are modelled from the spec and marked as such.
-/

namespace ClimateModule

/-- One flag of the Python `enum.Flag` `ClimateSetting.Capability`
(climate.py lines 75-87). A Python `Flag` value is a set of these atoms;
we embed a flag value as the list of atoms it contains, so that Python's
`a in b` bit test becomes list membership. -/
inductive Cap
  | ACTION
  | CURRENT_HUMIDITY
  | CURRENT_TEMPERATURE
  | FAN_MODE
  | MODE
  | POWER
  | PRESET_MODE
  | SWING_MODE
  | TARGET_HUMIDITY
  | TARGET_TEMPERATURE
  | TARGET_HIGH_TEMPERATURE
  | TARGET_LOW_TEMPERATURE
  deriving DecidableEq

/-- The declared capability flags, in declaration order. -/
def capabilityFlags : List Cap :=
  [.ACTION, .CURRENT_HUMIDITY, .CURRENT_TEMPERATURE, .FAN_MODE, .MODE, .POWER,
   .PRESET_MODE, .SWING_MODE, .TARGET_HUMIDITY, .TARGET_TEMPERATURE,
   .TARGET_HIGH_TEMPERATURE, .TARGET_LOW_TEMPERATURE]

/-- The `Climate.Action` enum (climate.py lines 238-244). -/
inductive Action
  | OFF
  | HEATING
  | COOLING
  | DRYING
  | IDLE
  | FAN
  deriving DecidableEq

/-- The `.value` of an `Action` member: the string the enum member wraps. -/
def Action.value : Action → String
  | .OFF => "off"
  | .HEATING => "heating"
  | .COOLING => "cooling"
  | .DRYING => "drying"
  | .IDLE => "idle"
  | .FAN => "fan"

/-- The fields of `ClimateInfo` (climate.py lines 28-71) that the module's own
logic reads or writes. The remaining fields are pass-through data for the
external discovery-document generator and play no role in any claim. -/
structure ClimateInfo where
  component : String := "climate"
  name : String
  fan_modes : Option (List String) := none
  modes : Option (List String) := none
  preset_modes : Option (List String) := none
  swing_modes : Option (List String) := none
  temperature_unit : Option String := none
  payload_on : String := "on"
  payload_off : String := "off"
  deriving DecidableEq

/-- Embeds `ClimateSetting` (climate.py lines 74-90): the optional capability flag set
plus the fields of the generic `Settings` base the module reads, namely
`mqtt.state_prefix` (embedded as `state_prefix_str`) and `entity`. -/
structure ClimateSetting where
  state_prefix_str : String
  capability : Option (List Cap) := none
  entity : ClimateInfo
  deriving DecidableEq

/-- A Python `dict[str, str]` as an ordered association list. -/
abbrev Dict := List (String × String)

/-- Python `d[k]` lookup: first (and with unique keys, only) binding of `k`. -/
def dictLookup (d : Dict) (k : String) : Option String :=
  match d with
  | [] => none
  | p :: rest => if p.1 = k then some p.2 else dictLookup rest k

/-- Python `d[k] = v` assignment: overwrite in place, else append (Python `dict`
assignment preserves insertion order and replaces an existing binding). -/
def dictInsert (d : Dict) (k : String) (v : String) : Dict :=
  match d with
  | [] => [(k, v)]
  | p :: rest => if p.1 = k then (k, v) :: rest else p :: dictInsert rest k v

/-- Python `del d[k]`: drop the binding of `k`. In the one place the module uses it,
the key is always present, so this total version agrees with Python. -/
def dictDelete (d : Dict) (k : String) : Dict :=
  match d with
  | [] => []
  | p :: rest => if p.1 = k then dictDelete rest k else p :: dictDelete rest k

/-- The class-level topic maps `Climate._state_topics` and
`Climate._command_topics` (climate.py lines 97-98). They are class attributes,
so they are state shared by every instance; every function that reads or
writes them takes and returns this record. -/
structure TopicState where
  state_topics : Dict
  command_topics : Dict
  deriving DecidableEq

/-- The empty topic maps: the class-attribute initial value `{}`. -/
def emptyTopics : TopicState := ⟨[], []⟩

/-- Modelled from the spec: the external base class derives the per-entity
topic path `self._entity_topic` from the entity it wraps (the base
`Discoverable`/`Settings` abstraction is an excluded collaborator; nothing in
any claim depends on the exact shape, only on it being a function of the
settings). -/
def entityTopic (s : ClimateSetting) : String :=
  s.entity.component ++ "/" ++ s.entity.name

/-- Modelled from the spec: the external base class `generate_config` (the
"pre-existing discovery-document generator") renders the entity's fields into
the discovery dictionary and, because the instance's `state_topic` attribute
is set when it runs, includes a `"state_topic"` entry. -/
def parentConfig (e : ClimateInfo) (state_topic : Option String) : Dict :=
  [("component", e.component), ("name", e.name)]
    ++ (match e.temperature_unit with
        | some u => [("temperature_unit", u)]
        | none => [])
    ++ (match state_topic with
        | some t => [("state_topic", t)]
        | none => [])

/-- Python `str.removesuffix`: drop `suf` from the end of `s` when present,
otherwise return `s` unchanged. -/
def stripSuffix (s : String) (suf : String) : String :=
  if suf.data.isSuffixOf s.data then
    ⟨s.data.take (s.data.length - suf.data.length)⟩
  else s

/-- The topic string built by `addStateTopic` (climate.py lines 176-181):
`"{state_prefix}/{entity_topic}/state/"` followed by the config key with the
suffixes `"_topic"` and `"_state"` stripped. -/
def stateTopicFor (s : ClimateSetting) (key : String) : String :=
  s.state_prefix_str ++ "/" ++ entityTopic s ++ "/state/"
    ++ stripSuffix (stripSuffix key "_topic") "_state"

/-- The topic string built by `addCommandTopic` (climate.py lines 183-188):
`"{state_prefix}/{entity_topic}/command/"` followed by the config key with the
suffixes `"_topic"` and `"_command"` stripped. -/
def commandTopicFor (s : ClimateSetting) (key : String) : String :=
  s.state_prefix_str ++ "/" ++ entityTopic s ++ "/command/"
    ++ stripSuffix (stripSuffix key "_topic") "_command"

/-- The topic string for a generated entry: state topic or command topic. -/
def topicValue (s : ClimateSetting) (isState : Bool) (key : String) : String :=
  if isState then stateTopicFor s key else commandTopicFor s key

/-- Embeds `addStateTopic key` (climate.py lines 176-181): store the state topic under
`key` both in the config being built and in the shared `_state_topics` map. -/
def addStateTopic (s : ClimateSetting) (acc : Dict × TopicState) (key : String) :
    Dict × TopicState :=
  let value := stateTopicFor s key
  (dictInsert acc.1 key value,
   { acc.2 with state_topics := dictInsert acc.2.state_topics key value })

/-- Embeds `addCommandTopic key` (climate.py lines 183-188): store the command topic
under `key` both in the config and in the shared `_command_topics` map. -/
def addCommandTopic (s : ClimateSetting) (acc : Dict × TopicState) (key : String) :
    Dict × TopicState :=
  let value := commandTopicFor s key
  (dictInsert acc.1 key value,
   { acc.2 with command_topics := dictInsert acc.2.command_topics key value })

/-- One `addStateTopic`/`addCommandTopic` call, selected by the entry kind. -/
def addEntry (s : ClimateSetting) (acc : Dict × TopicState) (isState : Bool)
    (key : String) : Dict × TopicState :=
  if isState then addStateTopic s acc key else addCommandTopic s acc key

/-- The fixed capability table of `generate_config` (climate.py lines
190-235), in source order: for each guarded branch, the owning flag, whether
the call is `addStateTopic` (`true`) or `addCommandTopic` (`false`), and the
config key passed. -/
def allEntries : List (Cap × Bool × String) :=
  [(.ACTION, true, "action_topic"),
   (.CURRENT_HUMIDITY, true, "current_humidity_topic"),
   (.CURRENT_TEMPERATURE, true, "current_temperature_topic"),
   (.FAN_MODE, true, "fan_mode_state_topic"),
   (.FAN_MODE, false, "fan_mode_command_topic"),
   (.MODE, true, "mode_state_topic"),
   (.MODE, false, "mode_command_topic"),
   (.POWER, false, "power_command_topic"),
   (.PRESET_MODE, true, "preset_mode_state_topic"),
   (.PRESET_MODE, false, "preset_mode_command_topic"),
   (.SWING_MODE, true, "swing_mode_state_topic"),
   (.SWING_MODE, false, "swing_mode_command_topic"),
   (.TARGET_HUMIDITY, true, "target_humidity_state_topic"),
   (.TARGET_HUMIDITY, false, "target_humidity_command_topic"),
   (.TARGET_TEMPERATURE, true, "temperature_state_topic"),
   (.TARGET_TEMPERATURE, false, "temperature_command_topic"),
   (.TARGET_HIGH_TEMPERATURE, true, "temperature_high_state_topic"),
   (.TARGET_HIGH_TEMPERATURE, false, "temperature_high_command_topic"),
   (.TARGET_LOW_TEMPERATURE, true, "temperature_low_state_topic"),
   (.TARGET_LOW_TEMPERATURE, false, "temperature_low_command_topic")]

/-- The config keys the capability table can generate. -/
def topicKeys : List String := allEntries.map (fun e => e.2.2)

/-- Run the capability table: each entry whose flag is in the capability set
performs its `addStateTopic`/`addCommandTopic` call, in table order. -/
def expandList (s : ClimateSetting) (caps : List Cap)
    (es : List (Cap × Bool × String)) (acc : Dict × TopicState) :
    Dict × TopicState :=
  match es with
  | [] => acc
  | e :: rest =>
      expandList s caps rest (if e.1 ∈ caps then addEntry s acc e.2.1 e.2.2 else acc)

/-- Embeds `Climate.generate_config` (climate.py lines 163-236): set `state_topic` to
`"bogus"`, take the parent config, delete the `"state_topic"` entry, then run
the capability table. A `None` capability (and likewise the empty flag set,
which is falsy in Python and skips every branch, exactly as an empty list does
here) leaves the parent config as is. Returns the config dictionary and the
updated shared topic maps. -/
def generate_config (s : ClimateSetting) (ts : TopicState) : Dict × TopicState :=
  let config0 := dictDelete (parentConfig s.entity (some "bogus")) "state_topic"
  match s.capability with
  | none => (config0, ts)
  | some caps => expandList s caps allEntries (config0, ts)

/-- Python truthiness of an optional list: `not x` holds for `None` and `[]`. -/
def listFalsy (x : Option (List String)) : Bool :=
  match x with
  | none => true
  | some l => l.isEmpty

/-- The entity-defaulting part of `Climate.__init__` (climate.py lines
140-156): when a capability is configured and the matching allowed-value list
is falsy (Python `not x`: `None` or the empty list), install the documented
default list; everything else is untouched. -/
def climateInitEntity (s : ClimateSetting) : ClimateInfo :=
  match s.capability with
  | none => s.entity
  | some caps =>
      let e := s.entity
      let e := if Cap.FAN_MODE ∈ caps ∧ listFalsy e.fan_modes = true then
        { e with fan_modes := some ["auto", "low", "medium", "high"] } else e
      let e := if Cap.MODE ∈ caps ∧ listFalsy e.modes = true then
        { e with modes := some ["auto", "off", "cool", "heat", "dry", "fan_only"] } else e
      let e := if Cap.SWING_MODE ∈ caps ∧ listFalsy e.swing_modes = true then
        { e with swing_modes := some ["on", "off"] } else e
      e

/-- A Python exception as observed by a caller of this module. -/
inductive PyError
  | runtimeError (msg : String)
  | keyError (key : String)
  | typeError (msg : String)
  deriving DecidableEq

/-- The outcome of one `set_*` call: the MQTT messages published as
`(topic, payload)` pairs, in order, and the exception the call raised, if
any. An exception aborts the call, so the `published` component holds exactly
the messages sent before the raise. -/
structure CallResult where
  published : List (String × String)
  error : Option PyError
  deriving DecidableEq

/-- The `RuntimeError` message of `_capability_state_helper`
(climate.py line 250). -/
def notConfiguredMsg : String := "Action is not configured for this entity!"

/-- The `RuntimeError` message of the mode-setter validation (climate.py
lines 306-308 and siblings; the Python text renders the accepted list with
`str`, whose exact bracketing is immaterial to every claim). -/
def invalidValueMsg (kind : String) (value : String) (accepted : List String) :
    String :=
  "Error sending " ++ kind ++ " " ++ value ++ " not valid value accepted are "
    ++ String.intercalate ", " accepted

/-- Modelled from the spec: `Discoverable._state_helper` of the external base
class publishes the payload string to the given topic; the MQTT transport is
an excluded collaborator and is modelled as delivering successfully (so the
`result.rc` failure branch of `_capability_state_helper` never fires). -/
def state_helper (state : String) (topic : String) : List (String × String) :=
  [(topic, state)]

/-- Embeds `Climate._capability_state_helper` (climate.py lines 246-255): raise
`RuntimeError` when the capability is not in the settings' flag set (Python
raises `TypeError` on `x in None` when no flag set is configured at all),
otherwise publish the state to the topic. -/
def capability_state_helper (s : ClimateSetting) (c : Cap) (state : String)
    (topic : String) : CallResult :=
  match s.capability with
  | none => ⟨[], some (.typeError "argument of type Capability is not iterable")⟩
  | some caps =>
      if c ∉ caps then ⟨[], some (.runtimeError notConfiguredMsg)⟩
      else ⟨state_helper state topic, none⟩

/-- A Python `float` argument as it reaches this module: the code never
computes with it, only renders it with `str`, so the value is embedded as its
decimal rendering. -/
structure PyFloat where
  str_repr : String
  deriving DecidableEq

/-- Python `str` applied to an embedded float argument. -/
def pyStr (x : PyFloat) : String := x.str_repr

/-- Embeds `Climate.set_action` (climate.py lines 257-260): look up the action state
topic (a missing key is a Python `KeyError`), then run the helper. -/
def set_action (s : ClimateSetting) (ts : TopicState) (action : Action) :
    CallResult :=
  let state := action.value
  match dictLookup ts.state_topics "action_topic" with
  | none => ⟨[], some (.keyError "action_topic")⟩
  | some topic => capability_state_helper s .ACTION state topic

/-- Embeds `Climate.set_current_humidity` (climate.py lines 262-267). -/
def set_current_humidity (s : ClimateSetting) (ts : TopicState) (humidity : PyFloat) :
    CallResult :=
  match dictLookup ts.state_topics "current_humidity_topic" with
  | none => ⟨[], some (.keyError "current_humidity_topic")⟩
  | some topic => capability_state_helper s .CURRENT_HUMIDITY (pyStr humidity) topic

/-- Embeds `Climate.set_target_humidity` (climate.py lines 269-274). -/
def set_target_humidity (s : ClimateSetting) (ts : TopicState) (humidity : PyFloat) :
    CallResult :=
  match dictLookup ts.state_topics "target_humidity_state_topic" with
  | none => ⟨[], some (.keyError "target_humidity_state_topic")⟩
  | some topic => capability_state_helper s .TARGET_HUMIDITY (pyStr humidity) topic

/-- Embeds `Climate.set_current_temperature` (climate.py lines 276-281). -/
def set_current_temperature (s : ClimateSetting) (ts : TopicState)
    (temperature : PyFloat) : CallResult :=
  match dictLookup ts.state_topics "current_temperature_topic" with
  | none => ⟨[], some (.keyError "current_temperature_topic")⟩
  | some topic => capability_state_helper s .CURRENT_TEMPERATURE (pyStr temperature) topic

/-- Embeds `Climate.set_target_temperature` (climate.py lines 283-288). -/
def set_target_temperature (s : ClimateSetting) (ts : TopicState)
    (temperature : PyFloat) : CallResult :=
  match dictLookup ts.state_topics "temperature_state_topic" with
  | none => ⟨[], some (.keyError "temperature_state_topic")⟩
  | some topic => capability_state_helper s .TARGET_TEMPERATURE (pyStr temperature) topic

/-- Embeds `Climate.set_target_high_temperature` (climate.py lines 290-295). -/
def set_target_high_temperature (s : ClimateSetting) (ts : TopicState)
    (temperature : PyFloat) : CallResult :=
  match dictLookup ts.state_topics "temperature_high_state_topic" with
  | none => ⟨[], some (.keyError "temperature_high_state_topic")⟩
  | some topic =>
      capability_state_helper s .TARGET_HIGH_TEMPERATURE (pyStr temperature) topic

/-- Embeds `Climate.set_target_low_temperature` (climate.py lines 297-302). -/
def set_target_low_temperature (s : ClimateSetting) (ts : TopicState)
    (temperature : PyFloat) : CallResult :=
  match dictLookup ts.state_topics "temperature_low_state_topic" with
  | none => ⟨[], some (.keyError "temperature_low_state_topic")⟩
  | some topic =>
      capability_state_helper s .TARGET_LOW_TEMPERATURE (pyStr temperature) topic

/-- Embeds `Climate.set_fan_mode` (climate.py lines 304-311): validate the mode
against `self._entity.fan_modes` (Python raises `TypeError` on `x in None`
when the list is unset), then look up the topic and run the helper. -/
def set_fan_mode (s : ClimateSetting) (ts : TopicState) (fan_mode : String) :
    CallResult :=
  match s.entity.fan_modes with
  | none => ⟨[], some (.typeError "argument of type NoneType is not iterable")⟩
  | some accepted =>
      if fan_mode ∉ accepted then
        ⟨[], some (.runtimeError (invalidValueMsg "fan mode" fan_mode accepted))⟩
      else
        match dictLookup ts.state_topics "fan_mode_state_topic" with
        | none => ⟨[], some (.keyError "fan_mode_state_topic")⟩
        | some topic => capability_state_helper s .FAN_MODE fan_mode topic

/-- Embeds `Climate.set_mode` (climate.py lines 313-320). -/
def set_mode (s : ClimateSetting) (ts : TopicState) (mode : String) : CallResult :=
  match s.entity.modes with
  | none => ⟨[], some (.typeError "argument of type NoneType is not iterable")⟩
  | some accepted =>
      if mode ∉ accepted then
        ⟨[], some (.runtimeError (invalidValueMsg "mode" mode accepted))⟩
      else
        match dictLookup ts.state_topics "mode_state_topic" with
        | none => ⟨[], some (.keyError "mode_state_topic")⟩
        | some topic => capability_state_helper s .MODE mode topic

/-- Embeds `Climate.set_preset_mode` (climate.py lines 322-331). -/
def set_preset_mode (s : ClimateSetting) (ts : TopicState) (preset_mode : String) :
    CallResult :=
  match s.entity.preset_modes with
  | none => ⟨[], some (.typeError "argument of type NoneType is not iterable")⟩
  | some accepted =>
      if preset_mode ∉ accepted then
        ⟨[], some (.runtimeError (invalidValueMsg "preset mode" preset_mode accepted))⟩
      else
        match dictLookup ts.state_topics "preset_mode_state_topic" with
        | none => ⟨[], some (.keyError "preset_mode_state_topic")⟩
        | some topic => capability_state_helper s .PRESET_MODE preset_mode topic

/-- Embeds `Climate.set_swing_mode` (climate.py lines 333-342); the source reuses the
"preset mode" wording in its error message. -/
def set_swing_mode (s : ClimateSetting) (ts : TopicState) (swing_mode : String) :
    CallResult :=
  match s.entity.swing_modes with
  | none => ⟨[], some (.typeError "argument of type NoneType is not iterable")⟩
  | some accepted =>
      if swing_mode ∉ accepted then
        ⟨[], some (.runtimeError (invalidValueMsg "preset mode" swing_mode accepted))⟩
      else
        match dictLookup ts.state_topics "swing_mode_state_topic" with
        | none => ⟨[], some (.keyError "swing_mode_state_topic")⟩
        | some topic => capability_state_helper s .SWING_MODE swing_mode topic

/-- The wildcard filter `on_client_connected` subscribes to
(climate.py line 123): `"{state_prefix}/{entity_topic}/command/#"`. -/
def subscriptionTopic (s : ClimateSetting) : String :=
  s.state_prefix_str ++ "/" ++ entityTopic s ++ "/command/#"

/-- The callback-registration loop of `on_client_connected` (climate.py lines
129-134): for each `(key, topic)` binding of the shared `_command_topics`
map, if `key` is in the user's `command_callbacks` dict, register that
callback on `topic`. A callback function is identified by its dict key, so
the result lists `(topic, callback key)` registrations in iteration order. -/
def registerCallbacks (ts : TopicState) (cbKeys : List String) :
    List (String × String) :=
  ts.command_topics.filterMap
    (fun p => if p.1 ∈ cbKeys then some (p.2, p.1) else none)

/-- Embeds `on_client_connected` (climate.py lines 119-134): subscribe to the
wildcard command filter, run `write_config` (which invokes `generate_config`,
populating the shared topic maps), then register the user callbacks. Returns
the subscription filter, the updated topic maps, and the registrations. -/
def on_client_connected (s : ClimateSetting) (ts : TopicState)
    (cbKeys : List String) : String × TopicState × List (String × String) :=
  let ts2 := (generate_config s ts).2
  (subscriptionTopic s, ts2, registerCallbacks ts2 cbKeys)

/-- Modelled from the spec: MQTT multi-level wildcard coverage (the MQTT
client is an excluded collaborator). A filter of the form `base ++ "/#"`
covers the base topic itself and every topic strictly below it; any other
filter covers only itself. -/
def mqttCovers (filt : String) (topic : String) : Prop :=
  (∃ base, filt = base ++ "/#"
    ∧ (topic = base ∨ ∃ rest, topic = base ++ "/" ++ rest))
  ∨ filt = topic

/-! ### Dictionary lemmas -/

theorem dictLookup_insert_self (d : Dict) (k v : String) :
    dictLookup (dictInsert d k v) k = some v := by
  induction d with
  | nil => simp [dictInsert, dictLookup]
  | cons p rest ih =>
      by_cases h : p.1 = k <;> simp [dictInsert, dictLookup, h, ih]

theorem dictLookup_insert_ne (d : Dict) (k v k2 : String) (h : k ≠ k2) :
    dictLookup (dictInsert d k v) k2 = dictLookup d k2 := by
  induction d with
  | nil => simp [dictInsert, dictLookup, h]
  | cons p rest ih =>
      by_cases hp : p.1 = k
      · subst hp
        simp [dictInsert, dictLookup, h]
      · simp [dictInsert, dictLookup, hp, ih]

theorem dictLookup_delete_self (d : Dict) (k : String) :
    dictLookup (dictDelete d k) k = none := by
  induction d with
  | nil => simp [dictDelete, dictLookup]
  | cons p rest ih =>
      by_cases h : p.1 = k <;> simp [dictDelete, dictLookup, h, ih]

theorem dictLookup_delete_ne (d : Dict) (k k2 : String) (h : k ≠ k2) :
    dictLookup (dictDelete d k) k2 = dictLookup d k2 := by
  induction d with
  | nil => simp [dictDelete, dictLookup]
  | cons p rest ih =>
      by_cases hp : p.1 = k
      · subst hp
        simp [dictDelete, dictLookup, h, ih]
      · simp [dictDelete, dictLookup, hp, ih]

theorem dictInsert_keys (d : Dict) (k v : String) :
    (dictInsert d k v).map Prod.fst =
      if k ∈ d.map Prod.fst then d.map Prod.fst else d.map Prod.fst ++ [k] := by
  induction d with
  | nil => simp [dictInsert]
  | cons p rest ih =>
      by_cases hp : p.1 = k
      · subst hp
        simp [dictInsert]
      · have hne : ¬ k = p.1 := fun h => hp h.symm
        by_cases hm : k ∈ rest.map Prod.fst <;>
          simp [dictInsert, hp, hne, hm, ih]

theorem dictInsert_keys_nodup (d : Dict) (k v : String)
    (h : (d.map Prod.fst).Nodup) : ((dictInsert d k v).map Prod.fst).Nodup := by
  rw [dictInsert_keys]
  by_cases hm : k ∈ d.map Prod.fst
  · simp [hm, h]
  · simp [hm, List.nodup_append, h]

theorem dictLookup_eq_of_mem (d : Dict) (k v : String)
    (hnd : (d.map Prod.fst).Nodup) (hm : (k, v) ∈ d) : dictLookup d k = some v := by
  induction d with
  | nil => cases hm
  | cons p rest ih =>
      rcases List.mem_cons.mp hm with heq | hrest
      · rw [← heq]
        simp [dictLookup]
      · have hk : k ∈ rest.map Prod.fst :=
          List.mem_map.mpr ⟨(k, v), hrest, rfl⟩
        have hp : p.1 ≠ k := fun h => (List.nodup_cons.mp hnd).1 (h ▸ hk)
        simp [dictLookup, hp]
        exact ih (List.nodup_cons.mp hnd).2 hrest

/-! ### Capability-table expansion lemmas -/

theorem addEntry_lookup_ne (s : ClimateSetting) (acc : Dict × TopicState)
    (b : Bool) (key k : String) (h : key ≠ k) :
    dictLookup (addEntry s acc b key).1 k = dictLookup acc.1 k
    ∧ dictLookup (addEntry s acc b key).2.state_topics k
        = dictLookup acc.2.state_topics k
    ∧ dictLookup (addEntry s acc b key).2.command_topics k
        = dictLookup acc.2.command_topics k := by
  cases b <;>
    simp [addEntry, addStateTopic, addCommandTopic, dictLookup_insert_ne _ _ _ _ h]

theorem expandList_lookup_of_not_mem (s : ClimateSetting) (caps : List Cap)
    (k : String) :
    ∀ (es : List (Cap × Bool × String)) (acc : Dict × TopicState),
      (∀ e ∈ es, e.2.2 ≠ k) →
      dictLookup (expandList s caps es acc).1 k = dictLookup acc.1 k
      ∧ dictLookup (expandList s caps es acc).2.state_topics k
          = dictLookup acc.2.state_topics k
      ∧ dictLookup (expandList s caps es acc).2.command_topics k
          = dictLookup acc.2.command_topics k := by
  intro es
  induction es with
  | nil => exact fun acc _ => ⟨rfl, rfl, rfl⟩
  | cons e rest ih =>
      intro acc h
      have hk : e.2.2 ≠ k := h e (by simp)
      have hrest : ∀ x ∈ rest, x.2.2 ≠ k := fun x hx => h x (by simp [hx])
      unfold expandList
      by_cases hc : e.1 ∈ caps
      · rw [if_pos hc]
        obtain ⟨h1, h2, h3⟩ := ih (addEntry s acc e.2.1 e.2.2) hrest
        obtain ⟨g1, g2, g3⟩ := addEntry_lookup_ne s acc e.2.1 e.2.2 k hk
        exact ⟨h1.trans g1, h2.trans g2, h3.trans g3⟩
      · rw [if_neg hc]
        exact ih acc hrest

theorem expandList_lookup_of_mem (s : ClimateSetting) (caps : List Cap)
    (c : Cap) (b : Bool) (k : String) (hc : c ∈ caps) :
    ∀ (es : List (Cap × Bool × String)) (acc : Dict × TopicState),
      (c, b, k) ∈ es → (es.map (fun e => e.2.2)).Nodup →
      dictLookup (expandList s caps es acc).1 k = some (topicValue s b k)
      ∧ dictLookup (expandList s caps es acc).2.state_topics k
          = (if b then some (topicValue s b k) else dictLookup acc.2.state_topics k)
      ∧ dictLookup (expandList s caps es acc).2.command_topics k
          = (if b then dictLookup acc.2.command_topics k else some (topicValue s b k)) := by
  intro es
  induction es with
  | nil => intro acc hmem _; cases hmem
  | cons e rest ih =>
      intro acc hmem hnd
      rcases List.mem_cons.mp hmem with heq | hrest
      · subst heq
        have hknotin : ∀ x ∈ rest, x.2.2 ≠ k := by
          intro x hx hcontra
          exact (List.nodup_cons.mp hnd).1
            (hcontra ▸ List.mem_map.mpr ⟨x, hx, rfl⟩)
        unfold expandList
        rw [if_pos hc]
        obtain ⟨h1, h2, h3⟩ :=
          expandList_lookup_of_not_mem s caps k rest (addEntry s acc b k) hknotin
        refine ⟨h1.trans ?_, h2.trans ?_, h3.trans ?_⟩ <;>
          cases b <;>
          simp [addEntry, addStateTopic, addCommandTopic, topicValue,
            dictLookup_insert_self]
      · have hkmem : k ∈ rest.map (fun e => e.2.2) :=
          List.mem_map.mpr ⟨(c, b, k), hrest, rfl⟩
        have hkne : e.2.2 ≠ k := by
          intro h
          refine (List.nodup_cons.mp hnd).1 ?_
          show e.2.2 ∈ rest.map (fun e => e.2.2)
          rw [h]
          exact hkmem
        unfold expandList
        by_cases hcc : e.1 ∈ caps
        · rw [if_pos hcc]
          obtain ⟨h1, h2, h3⟩ :=
            ih (addEntry s acc e.2.1 e.2.2) hrest (List.nodup_cons.mp hnd).2
          obtain ⟨g1, g2, g3⟩ := addEntry_lookup_ne s acc e.2.1 e.2.2 k hkne
          rw [g2] at h2
          rw [g3] at h3
          exact ⟨h1, h2, h3⟩
        · rw [if_neg hcc]
          exact ih acc hrest (List.nodup_cons.mp hnd).2

theorem expandList_lookup_of_not_cap (s : ClimateSetting) (caps : List Cap)
    (c : Cap) (b : Bool) (k : String) (hc : c ∉ caps) :
    ∀ (es : List (Cap × Bool × String)) (acc : Dict × TopicState),
      (c, b, k) ∈ es → (es.map (fun e => e.2.2)).Nodup →
      dictLookup (expandList s caps es acc).1 k = dictLookup acc.1 k
      ∧ dictLookup (expandList s caps es acc).2.state_topics k
          = dictLookup acc.2.state_topics k
      ∧ dictLookup (expandList s caps es acc).2.command_topics k
          = dictLookup acc.2.command_topics k := by
  intro es
  induction es with
  | nil => intro acc hmem _; cases hmem
  | cons e rest ih =>
      intro acc hmem hnd
      rcases List.mem_cons.mp hmem with heq | hrest
      · subst heq
        have hknotin : ∀ x ∈ rest, x.2.2 ≠ k := by
          intro x hx hcontra
          exact (List.nodup_cons.mp hnd).1
            (hcontra ▸ List.mem_map.mpr ⟨x, hx, rfl⟩)
        unfold expandList
        rw [if_neg hc]
        exact expandList_lookup_of_not_mem s caps k rest acc hknotin
      · have hkmem : k ∈ rest.map (fun e => e.2.2) :=
          List.mem_map.mpr ⟨(c, b, k), hrest, rfl⟩
        have hkne : e.2.2 ≠ k := by
          intro h
          refine (List.nodup_cons.mp hnd).1 ?_
          show e.2.2 ∈ rest.map (fun e => e.2.2)
          rw [h]
          exact hkmem
        unfold expandList
        by_cases hcc : e.1 ∈ caps
        · rw [if_pos hcc]
          obtain ⟨h1, h2, h3⟩ :=
            ih (addEntry s acc e.2.1 e.2.2) hrest (List.nodup_cons.mp hnd).2
          obtain ⟨g1, g2, g3⟩ := addEntry_lookup_ne s acc e.2.1 e.2.2 k hkne
          exact ⟨h1.trans g1, h2.trans g2, h3.trans g3⟩
        · rw [if_neg hcc]
          exact ih acc hrest (List.nodup_cons.mp hnd).2

theorem expandList_config_eq (s : ClimateSetting) (caps : List Cap) :
    ∀ (es : List (Cap × Bool × String)) (cfg : Dict) (ts ts2 : TopicState),
      (expandList s caps es (cfg, ts)).1 = (expandList s caps es (cfg, ts2)).1 := by
  intro es
  induction es with
  | nil => intro cfg ts ts2; rfl
  | cons e rest ih =>
      intro cfg ts ts2
      unfold expandList
      by_cases hc : e.1 ∈ caps
      · rw [if_pos hc, if_pos hc]
        cases e.2.1 <;>
          simp only [addEntry, addStateTopic, addCommandTopic, Bool.false_eq_true,
            if_true, if_false] <;>
          exact ih _ _ _
      · rw [if_neg hc, if_neg hc]
        exact ih cfg ts ts2

theorem expandList_command_keys_nodup (s : ClimateSetting) (caps : List Cap) :
    ∀ (es : List (Cap × Bool × String)) (acc : Dict × TopicState),
      ((acc.2.command_topics).map Prod.fst).Nodup →
      (((expandList s caps es acc).2.command_topics).map Prod.fst).Nodup := by
  intro es
  induction es with
  | nil => exact fun acc h => h
  | cons e rest ih =>
      intro acc h
      unfold expandList
      by_cases hc : e.1 ∈ caps
      · rw [if_pos hc]
        refine ih _ ?_
        cases hb : e.2.1 <;>
          simp only [addEntry, addStateTopic, addCommandTopic, Bool.false_eq_true,
            if_true, if_false]
        · exact dictInsert_keys_nodup _ _ _ h
        · exact h
      · rw [if_neg hc]
        exact ih acc h

theorem allEntries_keys_nodup : (allEntries.map (fun e => e.2.2)).Nodup := by
  decide

theorem allEntries_keys_ne_state_topic :
    ∀ e ∈ allEntries, e.2.2 ≠ "state_topic" := by
  decide

/-! ### Parent-config lemmas -/

theorem parentConfig_lookup_topicKey (e : ClimateInfo) (st : Option String)
    (k : String) (hk : k ∈ topicKeys) :
    dictLookup (parentConfig e st) k = none := by
  rcases e with ⟨comp, nm, fm, mo, pm, sm, tu, pon, poff⟩
  cases tu <;> cases st <;> fin_cases hk <;> rfl

theorem config0_lookup_topicKey (s : ClimateSetting) (k : String)
    (hk : k ∈ topicKeys) :
    dictLookup (dictDelete (parentConfig s.entity (some "bogus")) "state_topic") k
      = none := by
  have hne : "state_topic" ≠ k := by
    intro h
    rw [← h] at hk
    exact absurd hk (by decide)
  rw [dictLookup_delete_ne _ _ _ hne, parentConfig_lookup_topicKey _ _ _ hk]

/-! ### Callback-registration and wildcard lemmas -/

theorem mem_registerCallbacks_of_lookup (d : Dict) (cbKeys : List String)
    (k v : String) (hl : dictLookup d k = some v) (hk : k ∈ cbKeys) :
    (v, k) ∈ d.filterMap
      (fun p => if p.1 ∈ cbKeys then some (p.2, p.1) else none) := by
  induction d with
  | nil => simp [dictLookup] at hl
  | cons p rest ih =>
      by_cases hp : p.1 = k
      · subst hp
        rw [dictLookup, if_pos rfl] at hl
        have hv : p.2 = v := Option.some.inj hl
        subst hv
        simp [List.filterMap_cons, hk]
      · rw [dictLookup, if_neg hp] at hl
        have hmem := ih hl
        by_cases hpc : p.1 ∈ cbKeys
        · simp only [List.filterMap_cons, hpc, if_pos, List.mem_cons]
          exact Or.inr hmem
        · simp only [List.filterMap_cons, hpc, if_neg, ite_false]
          exact hmem

theorem lookup_of_mem_registerCallbacks (d : Dict) (cbKeys : List String)
    (t k : String) (hnd : (d.map Prod.fst).Nodup)
    (hm : (t, k) ∈ d.filterMap
      (fun p => if p.1 ∈ cbKeys then some (p.2, p.1) else none)) :
    k ∈ cbKeys ∧ dictLookup d k = some t := by
  rcases List.mem_filterMap.mp hm with ⟨p, hpd, hpe⟩
  by_cases hpc : p.1 ∈ cbKeys
  · rw [if_pos hpc] at hpe
    have hpair : (p.2, p.1) = (t, k) := Option.some.inj hpe
    have h2 : p.2 = t := congrArg Prod.fst hpair
    have h1 : p.1 = k := congrArg Prod.snd hpair
    refine ⟨h1 ▸ hpc, ?_⟩
    refine dictLookup_eq_of_mem d k t hnd ?_
    have : p = (k, t) := by
      rw [← h1, ← h2]
    exact this ▸ hpd
  · rw [if_neg hpc] at hpe
    exact absurd hpe (by simp)

theorem mqttCovers_command (s : ClimateSetting) (key : String) :
    mqttCovers (subscriptionTopic s) (commandTopicFor s key) := by
  have hbase : subscriptionTopic s
      = (s.state_prefix_str ++ "/" ++ entityTopic s ++ "/command") ++ "/#" := by
    unfold subscriptionTopic
    rw [String.append_assoc (s.state_prefix_str ++ "/" ++ entityTopic s)
      "/command" "/#"]
    rfl
  have htop : commandTopicFor s key
      = (s.state_prefix_str ++ "/" ++ entityTopic s ++ "/command") ++ "/"
        ++ stripSuffix (stripSuffix key "_topic") "_command" := by
    unfold commandTopicFor
    rw [String.append_assoc (s.state_prefix_str ++ "/" ++ entityTopic s)
      "/command" "/"]
    rfl
  exact Or.inl ⟨_, hbase, Or.inr ⟨_, htop⟩⟩

/-- Combined description of one `generate_config` run: for each entry of the
capability table, what the produced config dictionary and the updated shared
topic maps hold at that entry's key. -/
theorem generate_config_lookup (s : ClimateSetting) (ts : TopicState)
    (caps : List Cap) (hcap : s.capability = some caps)
    (c : Cap) (b : Bool) (k : String) (he : (c, b, k) ∈ allEntries) :
    dictLookup (generate_config s ts).1 k
      = (if c ∈ caps then some (topicValue s b k) else none)
    ∧ dictLookup (generate_config s ts).2.state_topics k
      = (if c ∈ caps ∧ b = true then some (topicValue s b k)
         else dictLookup ts.state_topics k)
    ∧ dictLookup (generate_config s ts).2.command_topics k
      = (if c ∈ caps ∧ b = false then some (topicValue s b k)
         else dictLookup ts.command_topics k) := by
  have hk : k ∈ topicKeys := List.mem_map.mpr ⟨(c, b, k), he, rfl⟩
  simp only [generate_config, hcap]
  by_cases hc : c ∈ caps
  · obtain ⟨h1, h2, h3⟩ :=
      expandList_lookup_of_mem s caps c b k hc allEntries _ he allEntries_keys_nodup
    refine ⟨?_, ?_, ?_⟩
    · rw [h1, if_pos hc]
    · rw [h2]
      cases b <;> simp [hc]
    · rw [h3]
      cases b <;> simp [hc]
  · obtain ⟨h1, h2, h3⟩ :=
      expandList_lookup_of_not_cap s caps c b k hc allEntries _ he
        allEntries_keys_nodup
    refine ⟨?_, ?_, ?_⟩
    · rw [h1, if_neg hc]
      exact config0_lookup_topicKey s k hk
    · rw [h2]
      simp [hc]
    · rw [h3]
      simp [hc]

/-! ### Concrete instances used by witnesses and counterexamples -/

/-- A concrete entity with every allowed-value list populated. -/
def witnessInfo : ClimateInfo :=
  { name := "wclim", fan_modes := some ["auto", "low"],
    modes := some ["auto", "off"], preset_modes := some ["eco", "boost"],
    swing_modes := some ["on", "off"], temperature_unit := some "C" }

/-- Concrete settings with every capability configured. -/
def witnessSettings : ClimateSetting :=
  { state_prefix_str := "hmd", capability := some capabilityFlags,
    entity := witnessInfo }

/-- Concrete settings whose only capability is ACTION. -/
def actionOnlySettings : ClimateSetting :=
  { state_prefix_str := "hmd", capability := some [.ACTION],
    entity := { name := "first" } }

/-- Concrete FAN_MODE-only settings, used as the first instance in
shared-state scenarios. -/
def fanOnlySettings : ClimateSetting :=
  { state_prefix_str := "hmd", capability := some [.FAN_MODE],
    entity := { name := "first", fan_modes := some ["auto"],
                modes := some ["heat"] } }

/-- Concrete MODE-only settings (with a `fan_modes` list set by hand), used as
the second instance in shared-state scenarios. -/
def modeOnlySettings : ClimateSetting :=
  { state_prefix_str := "hmd", capability := some [.MODE],
    entity := { name := "second", fan_modes := some ["auto"],
                modes := some ["heat"] } }

/-- Concrete settings probing the constructor defaults: FAN_MODE configured
with `fan_modes` unset, SWING_MODE configured with `swing_modes` set. -/
def defaultsProbeSettings : ClimateSetting :=
  { state_prefix_str := "hmd", capability := some [.FAN_MODE, .SWING_MODE],
    entity := { name := "probe", swing_modes := some ["fixed"] } }

/-! ### Claims -/

/-- C1: for every `ClimateSetting` whose capability flag set is non-empty,
`generate_config` adds topic entries to the discovery payload for exactly the
capabilities present in the flag set: each capability-table entry owned by a
present capability maps its config key to the deterministic topic string
(`{state_prefix}/{entity_topic}/state/` resp. `.../command/` followed by the
key with the suffixes `_topic` and then `_state` resp. `_command` stripped),
and keys owned by absent capabilities do not appear in the payload. -/
theorem c1_generate_config_topic_entries (s : ClimateSetting) (ts : TopicState)
    (caps : List Cap) (hcap : s.capability = some caps) (_hne : caps ≠ [])
    (c : Cap) (b : Bool) (k : String) (he : (c, b, k) ∈ allEntries) :
    dictLookup (generate_config s ts).1 k
      = (if c ∈ caps then some (topicValue s b k) else none) :=
  (generate_config_lookup s ts caps hcap c b k he).1

/-- Witness for C1: with only FAN_MODE configured, the payload maps
`fan_mode_state_topic` to `hmd/climate/first/state/fan_mode` and has no
`power_command_topic` entry. -/
theorem c1_generate_config_topic_entries_witness :
    dictLookup (generate_config fanOnlySettings emptyTopics).1
        "fan_mode_state_topic" = some "hmd/climate/first/state/fan_mode"
    ∧ dictLookup (generate_config fanOnlySettings emptyTopics).1
        "power_command_topic" = none := by
  constructor
  · have h := c1_generate_config_topic_entries fanOnlySettings emptyTopics
      [.FAN_MODE] rfl (by decide) .FAN_MODE true "fan_mode_state_topic" (by decide)
    exact h.trans (by decide)
  · have h := c1_generate_config_topic_entries fanOnlySettings emptyTopics
      [.FAN_MODE] rfl (by decide) .POWER false "power_command_topic" (by decide)
    exact h.trans (by decide)

/-- C2 counterexample: ACTION is present in a concrete capability set, yet
`generate_config` produces no command topic at all — ACTION does not map to a
state/command topic-name pair, refuting "each capability enum flag maps to a
topic-name pair". -/
theorem c2_capability_pair_cex :
    Cap.ACTION ∈ [Cap.ACTION]
    ∧ (generate_config actionOnlySettings emptyTopics).2.command_topics = []
    ∧ (∀ e ∈ allEntries, e.1 = Cap.ACTION → e.2.1 = true) := by
  exact ⟨by decide, by decide, by decide⟩

/-- C2 (amended): the capability table maps the 12 declared flags; eight of
them map to a state/command topic-name pair, while ACTION, CURRENT_HUMIDITY
and CURRENT_TEMPERATURE map to a state topic only and POWER to a command
topic only; every table entry of a present flag is produced in the payload
with its generated topic value. -/
theorem c2_capability_topic_kinds (s : ClimateSetting) (ts : TopicState)
    (caps : List Cap) (hcap : s.capability = some caps)
    (c : Cap) (hc : c ∈ caps) :
    capabilityFlags.length = 12
    ∧ ((∃ k, (c, true, k) ∈ allEntries) ↔ c ≠ .POWER)
    ∧ ((∃ k, (c, false, k) ∈ allEntries) ↔
        (c ≠ .ACTION ∧ c ≠ .CURRENT_HUMIDITY ∧ c ≠ .CURRENT_TEMPERATURE))
    ∧ (∀ b k, (c, b, k) ∈ allEntries →
        dictLookup (generate_config s ts).1 k = some (topicValue s b k)) := by
  refine ⟨rfl, ?_, ?_, ?_⟩
  · cases c <;> simp [allEntries]
  · cases c <;> simp [allEntries]
  · intro b k he
    have h := (generate_config_lookup s ts caps hcap c b k he).1
    rw [h, if_pos hc]

/-- Witness for C2 (amended): with every capability configured, the payload
holds the generated command topic for FAN_MODE. -/
theorem c2_capability_topic_kinds_witness :
    dictLookup (generate_config witnessSettings emptyTopics).1
      "fan_mode_command_topic" = some "hmd/climate/wclim/command/fan_mode" := by
  have h := (c2_capability_topic_kinds witnessSettings emptyTopics
      capabilityFlags rfl .FAN_MODE (by decide)).2.2.2 false
      "fan_mode_command_topic" (by decide)
  exact h.trans (by decide)

/-- C7: `generate_config` is a deterministic, idempotent expansion of the
settings — the returned config dictionary depends only on the settings (and
the entity they carry), not on the shared topic-map state, so two calls on
the same instance, or on instances built from equal settings, return equal
config dictionaries. -/
theorem c7_generate_config_deterministic (s : ClimateSetting)
    (ts1 ts2 : TopicState) :
    (generate_config s ts1).1 = (generate_config s ts2).1 := by
  obtain ⟨pre, cap, ent⟩ := s
  cases cap with
  | none => rfl
  | some caps =>
      simp only [generate_config]
      exact expandList_config_eq ⟨pre, some caps, ent⟩ caps allEntries _ ts1 ts2

/-- C8: `_state_topics` and `_command_topics` are class-level maps shared by
every instance — after a second instance runs `generate_config`, the entries
generated by the first instance for a capability the second instance lacks
are still present, with the first instance's topic values. -/
theorem c8_topic_maps_shared (sA sB : ClimateSetting) (ts0 : TopicState)
    (capsA capsB : List Cap) (hA : sA.capability = some capsA)
    (hB : sB.capability = some capsB)
    (c : Cap) (b : Bool) (k : String) (he : (c, b, k) ∈ allEntries)
    (hcA : c ∈ capsA) (hcB : c ∉ capsB) :
    (b = true →
      dictLookup ((generate_config sB (generate_config sA ts0).2).2).state_topics k
        = some (topicValue sA b k))
    ∧ (b = false →
      dictLookup ((generate_config sB (generate_config sA ts0).2).2).command_topics k
        = some (topicValue sA b k)) := by
  have hAl := generate_config_lookup sA ts0 capsA hA c b k he
  have hBl := generate_config_lookup sB (generate_config sA ts0).2 capsB hB c b k he
  constructor
  · rintro rfl
    rw [hBl.2.1, if_neg (by simp [hcB]), hAl.2.1, if_pos ⟨hcA, rfl⟩]
  · rintro rfl
    rw [hBl.2.2, if_neg (by simp [hcB]), hAl.2.2, if_pos ⟨hcA, rfl⟩]

/-- Witness for C8: the FAN_MODE state topic generated by the first instance
is still served by the shared map after the MODE-only second instance runs
`generate_config`. -/
theorem c8_topic_maps_shared_witness :
    dictLookup ((generate_config modeOnlySettings
        (generate_config fanOnlySettings emptyTopics).2).2).state_topics
      "fan_mode_state_topic" = some "hmd/climate/first/state/fan_mode" := by
  have h := (c8_topic_maps_shared fanOnlySettings modeOnlySettings emptyTopics
      [.FAN_MODE] [.MODE] rfl rfl .FAN_MODE true "fan_mode_state_topic"
      (by decide) (by decide) (by decide)).1 rfl
  exact h.trans (by decide)

/-- C10: the dictionary `generate_config` returns never contains the generic
`"state_topic"` key — the parent-generated entry is deleted and no capability
branch re-adds it, so the payload exposes only per-capability topic keys. -/
theorem c10_no_generic_state_topic (s : ClimateSetting) (ts : TopicState) :
    dictLookup (generate_config s ts).1 "state_topic" = none := by
  obtain ⟨pre, cap, ent⟩ := s
  cases cap with
  | none =>
      simp only [generate_config]
      exact dictLookup_delete_self _ _
  | some caps =>
      simp only [generate_config]
      obtain ⟨h1, _, _⟩ :=
        expandList_lookup_of_not_mem ⟨pre, some caps, ent⟩ caps "state_topic"
          allEntries
          (dictDelete (parentConfig ent (some "bogus")) "state_topic", ts)
          allEntries_keys_ne_state_topic
      exact h1.trans (dictLookup_delete_self _ _)

/-- Nodup command-topic keys survive one `generate_config` run. -/
theorem generate_config_command_keys_nodup (s : ClimateSetting)
    (ts : TopicState) (caps : List Cap) (hcap : s.capability = some caps)
    (hnd : (ts.command_topics.map Prod.fst).Nodup) :
    (((generate_config s ts).2.command_topics).map Prod.fst).Nodup := by
  simp only [generate_config, hcap]
  exact expandList_command_keys_nodup s caps allEntries _ hnd

/-- C3: each configured `set_*` operation publishes exactly one message, to
exactly the state topic `generate_config` generated for its capability, and
the payload is the plain UTF-8 string: `str(x)` for the numeric setters, the
mode string itself for the mode setters, and the `Action` member's value for
`set_action`. -/
theorem c3_setters_publish (s : ClimateSetting) (ts0 : TopicState)
    (caps : List Cap) (hcap : s.capability = some caps) :
    (Cap.ACTION ∈ caps → ∀ a : Action,
      set_action s (generate_config s ts0).2 a
        = ⟨[(stateTopicFor s "action_topic", a.value)], none⟩)
    ∧ (Cap.CURRENT_HUMIDITY ∈ caps → ∀ x : PyFloat,
      set_current_humidity s (generate_config s ts0).2 x
        = ⟨[(stateTopicFor s "current_humidity_topic", pyStr x)], none⟩)
    ∧ (Cap.TARGET_HUMIDITY ∈ caps → ∀ x : PyFloat,
      set_target_humidity s (generate_config s ts0).2 x
        = ⟨[(stateTopicFor s "target_humidity_state_topic", pyStr x)], none⟩)
    ∧ (Cap.CURRENT_TEMPERATURE ∈ caps → ∀ x : PyFloat,
      set_current_temperature s (generate_config s ts0).2 x
        = ⟨[(stateTopicFor s "current_temperature_topic", pyStr x)], none⟩)
    ∧ (Cap.TARGET_TEMPERATURE ∈ caps → ∀ x : PyFloat,
      set_target_temperature s (generate_config s ts0).2 x
        = ⟨[(stateTopicFor s "temperature_state_topic", pyStr x)], none⟩)
    ∧ (Cap.TARGET_HIGH_TEMPERATURE ∈ caps → ∀ x : PyFloat,
      set_target_high_temperature s (generate_config s ts0).2 x
        = ⟨[(stateTopicFor s "temperature_high_state_topic", pyStr x)], none⟩)
    ∧ (Cap.TARGET_LOW_TEMPERATURE ∈ caps → ∀ x : PyFloat,
      set_target_low_temperature s (generate_config s ts0).2 x
        = ⟨[(stateTopicFor s "temperature_low_state_topic", pyStr x)], none⟩)
    ∧ (Cap.FAN_MODE ∈ caps → ∀ l m, s.entity.fan_modes = some l → m ∈ l →
      set_fan_mode s (generate_config s ts0).2 m
        = ⟨[(stateTopicFor s "fan_mode_state_topic", m)], none⟩)
    ∧ (Cap.MODE ∈ caps → ∀ l m, s.entity.modes = some l → m ∈ l →
      set_mode s (generate_config s ts0).2 m
        = ⟨[(stateTopicFor s "mode_state_topic", m)], none⟩)
    ∧ (Cap.PRESET_MODE ∈ caps → ∀ l m, s.entity.preset_modes = some l → m ∈ l →
      set_preset_mode s (generate_config s ts0).2 m
        = ⟨[(stateTopicFor s "preset_mode_state_topic", m)], none⟩)
    ∧ (Cap.SWING_MODE ∈ caps → ∀ l m, s.entity.swing_modes = some l → m ∈ l →
      set_swing_mode s (generate_config s ts0).2 m
        = ⟨[(stateTopicFor s "swing_mode_state_topic", m)], none⟩) := by
  refine ⟨?_, ?_, ?_, ?_, ?_, ?_, ?_, ?_, ?_, ?_, ?_⟩
  · intro hc a
    have hl := (generate_config_lookup s ts0 caps hcap .ACTION true
      "action_topic" (by decide)).2.1
    rw [if_pos ⟨hc, rfl⟩] at hl
    simp [set_action, hl, capability_state_helper, hcap, hc, state_helper,
      topicValue]
  · intro hc x
    have hl := (generate_config_lookup s ts0 caps hcap .CURRENT_HUMIDITY true
      "current_humidity_topic" (by decide)).2.1
    rw [if_pos ⟨hc, rfl⟩] at hl
    simp [set_current_humidity, hl, capability_state_helper, hcap, hc,
      state_helper, topicValue]
  · intro hc x
    have hl := (generate_config_lookup s ts0 caps hcap .TARGET_HUMIDITY true
      "target_humidity_state_topic" (by decide)).2.1
    rw [if_pos ⟨hc, rfl⟩] at hl
    simp [set_target_humidity, hl, capability_state_helper, hcap, hc,
      state_helper, topicValue]
  · intro hc x
    have hl := (generate_config_lookup s ts0 caps hcap .CURRENT_TEMPERATURE true
      "current_temperature_topic" (by decide)).2.1
    rw [if_pos ⟨hc, rfl⟩] at hl
    simp [set_current_temperature, hl, capability_state_helper, hcap, hc,
      state_helper, topicValue]
  · intro hc x
    have hl := (generate_config_lookup s ts0 caps hcap .TARGET_TEMPERATURE true
      "temperature_state_topic" (by decide)).2.1
    rw [if_pos ⟨hc, rfl⟩] at hl
    simp [set_target_temperature, hl, capability_state_helper, hcap, hc,
      state_helper, topicValue]
  · intro hc x
    have hl := (generate_config_lookup s ts0 caps hcap .TARGET_HIGH_TEMPERATURE
      true "temperature_high_state_topic" (by decide)).2.1
    rw [if_pos ⟨hc, rfl⟩] at hl
    simp [set_target_high_temperature, hl, capability_state_helper, hcap, hc,
      state_helper, topicValue]
  · intro hc x
    have hl := (generate_config_lookup s ts0 caps hcap .TARGET_LOW_TEMPERATURE
      true "temperature_low_state_topic" (by decide)).2.1
    rw [if_pos ⟨hc, rfl⟩] at hl
    simp [set_target_low_temperature, hl, capability_state_helper, hcap, hc,
      state_helper, topicValue]
  · intro hc l m hfm hm
    have hl := (generate_config_lookup s ts0 caps hcap .FAN_MODE true
      "fan_mode_state_topic" (by decide)).2.1
    rw [if_pos ⟨hc, rfl⟩] at hl
    simp [set_fan_mode, hfm, hm, hl, capability_state_helper, hcap, hc,
      state_helper, topicValue]
  · intro hc l m hfm hm
    have hl := (generate_config_lookup s ts0 caps hcap .MODE true
      "mode_state_topic" (by decide)).2.1
    rw [if_pos ⟨hc, rfl⟩] at hl
    simp [set_mode, hfm, hm, hl, capability_state_helper, hcap, hc,
      state_helper, topicValue]
  · intro hc l m hfm hm
    have hl := (generate_config_lookup s ts0 caps hcap .PRESET_MODE true
      "preset_mode_state_topic" (by decide)).2.1
    rw [if_pos ⟨hc, rfl⟩] at hl
    simp [set_preset_mode, hfm, hm, hl, capability_state_helper, hcap, hc,
      state_helper, topicValue]
  · intro hc l m hfm hm
    have hl := (generate_config_lookup s ts0 caps hcap .SWING_MODE true
      "swing_mode_state_topic" (by decide)).2.1
    rw [if_pos ⟨hc, rfl⟩] at hl
    simp [set_swing_mode, hfm, hm, hl, capability_state_helper, hcap, hc,
      state_helper, topicValue]

/-- Witness for C3: on a fully-capable concrete entity, `set_action` publishes
exactly one message with the Action value to the generated state topic, and
`set_fan_mode` publishes the mode string to its generated state topic. -/
theorem c3_setters_publish_witness :
    set_action witnessSettings (generate_config witnessSettings emptyTopics).2
        .COOLING = ⟨[("hmd/climate/wclim/state/action", "cooling")], none⟩
    ∧ set_fan_mode witnessSettings (generate_config witnessSettings emptyTopics).2
        "low" = ⟨[("hmd/climate/wclim/state/fan_mode", "low")], none⟩ := by
  have h := c3_setters_publish witnessSettings emptyTopics capabilityFlags rfl
  constructor
  · exact (h.1 (by decide) .COOLING).trans (by decide)
  · exact (h.2.2.2.2.2.2.2.1 (by decide) ["auto", "low"] "low" rfl
      (by decide)).trans (by decide)

/-- C4: on MQTT connection the entity subscribes to the wildcard filter
`{state_prefix}/{entity_topic}/command/#`, which covers every command topic
the capability table generates; every generated command-topic key present in
the user's `command_callbacks` dict gets its callback registered on exactly
the generated command topic, and a key absent from the dict gets no
registration. -/
theorem c4_on_connect_routing (s : ClimateSetting) (ts0 : TopicState)
    (caps : List Cap) (cbKeys : List String)
    (hcap : s.capability = some caps)
    (hnd : (ts0.command_topics.map Prod.fst).Nodup)
    (c : Cap) (k : String) (he : (c, false, k) ∈ allEntries) (hc : c ∈ caps) :
    (on_client_connected s ts0 cbKeys).1 = subscriptionTopic s
    ∧ mqttCovers (subscriptionTopic s) (commandTopicFor s k)
    ∧ (k ∈ cbKeys →
        (commandTopicFor s k, k) ∈ (on_client_connected s ts0 cbKeys).2.2)
    ∧ (∀ t, (t, k) ∈ (on_client_connected s ts0 cbKeys).2.2 →
        k ∈ cbKeys ∧ t = commandTopicFor s k) := by
  have hl := (generate_config_lookup s ts0 caps hcap c false k he).2.2
  rw [if_pos ⟨hc, rfl⟩] at hl
  have hlc : dictLookup (generate_config s ts0).2.command_topics k
      = some (commandTopicFor s k) := by
    rw [hl]
    simp [topicValue]
  have hnd2 := generate_config_command_keys_nodup s ts0 caps hcap hnd
  refine ⟨rfl, mqttCovers_command s k, ?_, ?_⟩
  · intro hk
    exact mem_registerCallbacks_of_lookup _ cbKeys k _ hlc hk
  · intro t hm
    obtain ⟨h1, h2⟩ := lookup_of_mem_registerCallbacks _ cbKeys t k hnd2 hm
    exact ⟨h1, Option.some.inj (h2.symm.trans hlc)⟩

/-- Witness for C4: the FAN_MODE command callback is registered on the
generated command topic of the concrete FAN_MODE-only instance. -/
theorem c4_on_connect_routing_witness :
    ("hmd/climate/first/command/fan_mode", "fan_mode_command_topic")
      ∈ (on_client_connected fanOnlySettings emptyTopics
          ["fan_mode_command_topic"]).2.2 := by
  have h := (c4_on_connect_routing fanOnlySettings emptyTopics [.FAN_MODE]
      ["fan_mode_command_topic"] rfl (by decide) .FAN_MODE
      "fan_mode_command_topic" (by decide) (by decide)).2.2.1 (by decide)
  have heq : commandTopicFor fanOnlySettings "fan_mode_command_topic"
      = "hmd/climate/first/command/fan_mode" := by decide
  rw [← heq]
  exact h

/-- C5 counterexample: with the shared topic maps already holding the
`fan_mode_state_topic` entry of a FAN_MODE-capable first instance, a
MODE-only second instance raises `RuntimeError` from `set_fan_mode` for a
mode that IS in its `fan_modes` list — refuting "RuntimeError if and only if
the mode is not a member of the list". -/
theorem c5_mode_validation_cex :
    "auto" ∈ ["auto"]
    ∧ modeOnlySettings.entity.fan_modes = some ["auto"]
    ∧ set_fan_mode modeOnlySettings
        (generate_config fanOnlySettings emptyTopics).2 "auto"
      = ⟨[], some (.runtimeError notConfiguredMsg)⟩ := by
  exact ⟨by decide, rfl, by decide⟩

/-- C5 (amended): each mode setter validates its argument against the
entity's allowed list — a mode outside the list always raises `RuntimeError`
(the invalid-value message) with nothing published, and on an entity whose
corresponding capability is configured and whose topics have been generated,
a mode inside the list publishes with no error; so for such a configured
entity the error is raised iff the mode is not in the list. Without the
capability configured, an error can be raised even for a valid mode. -/
theorem c5_mode_setters_validation (s : ClimateSetting) (ts0 : TopicState)
    (caps : List Cap) (hcap : s.capability = some caps) (m : String) :
    (∀ l, s.entity.fan_modes = some l →
      (m ∉ l → ∀ ts, set_fan_mode s ts m
          = ⟨[], some (.runtimeError (invalidValueMsg "fan mode" m l))⟩)
      ∧ (Cap.FAN_MODE ∈ caps → m ∈ l →
        set_fan_mode s (generate_config s ts0).2 m
          = ⟨[(stateTopicFor s "fan_mode_state_topic", m)], none⟩))
    ∧ (∀ l, s.entity.modes = some l →
      (m ∉ l → ∀ ts, set_mode s ts m
          = ⟨[], some (.runtimeError (invalidValueMsg "mode" m l))⟩)
      ∧ (Cap.MODE ∈ caps → m ∈ l →
        set_mode s (generate_config s ts0).2 m
          = ⟨[(stateTopicFor s "mode_state_topic", m)], none⟩))
    ∧ (∀ l, s.entity.preset_modes = some l →
      (m ∉ l → ∀ ts, set_preset_mode s ts m
          = ⟨[], some (.runtimeError (invalidValueMsg "preset mode" m l))⟩)
      ∧ (Cap.PRESET_MODE ∈ caps → m ∈ l →
        set_preset_mode s (generate_config s ts0).2 m
          = ⟨[(stateTopicFor s "preset_mode_state_topic", m)], none⟩))
    ∧ (∀ l, s.entity.swing_modes = some l →
      (m ∉ l → ∀ ts, set_swing_mode s ts m
          = ⟨[], some (.runtimeError (invalidValueMsg "preset mode" m l))⟩)
      ∧ (Cap.SWING_MODE ∈ caps → m ∈ l →
        set_swing_mode s (generate_config s ts0).2 m
          = ⟨[(stateTopicFor s "swing_mode_state_topic", m)], none⟩)) := by
  refine ⟨?_, ?_, ?_, ?_⟩
  · intro l hfm
    constructor
    · intro hm ts
      simp [set_fan_mode, hfm, hm]
    · intro hc hm
      have hl := (generate_config_lookup s ts0 caps hcap .FAN_MODE true
        "fan_mode_state_topic" (by decide)).2.1
      rw [if_pos ⟨hc, rfl⟩] at hl
      simp [set_fan_mode, hfm, hm, hl, capability_state_helper, hcap, hc,
        state_helper, topicValue]
  · intro l hfm
    constructor
    · intro hm ts
      simp [set_mode, hfm, hm]
    · intro hc hm
      have hl := (generate_config_lookup s ts0 caps hcap .MODE true
        "mode_state_topic" (by decide)).2.1
      rw [if_pos ⟨hc, rfl⟩] at hl
      simp [set_mode, hfm, hm, hl, capability_state_helper, hcap, hc,
        state_helper, topicValue]
  · intro l hfm
    constructor
    · intro hm ts
      simp [set_preset_mode, hfm, hm]
    · intro hc hm
      have hl := (generate_config_lookup s ts0 caps hcap .PRESET_MODE true
        "preset_mode_state_topic" (by decide)).2.1
      rw [if_pos ⟨hc, rfl⟩] at hl
      simp [set_preset_mode, hfm, hm, hl, capability_state_helper, hcap, hc,
        state_helper, topicValue]
  · intro l hfm
    constructor
    · intro hm ts
      simp [set_swing_mode, hfm, hm]
    · intro hc hm
      have hl := (generate_config_lookup s ts0 caps hcap .SWING_MODE true
        "swing_mode_state_topic" (by decide)).2.1
      rw [if_pos ⟨hc, rfl⟩] at hl
      simp [set_swing_mode, hfm, hm, hl, capability_state_helper, hcap, hc,
        state_helper, topicValue]

/-- Witness for C5 (amended): a fan mode outside the allowed list raises the
invalid-value `RuntimeError` and publishes nothing. -/
theorem c5_mode_setters_validation_witness :
    set_fan_mode witnessSettings emptyTopics "bogus"
      = ⟨[], some (.runtimeError
          (invalidValueMsg "fan mode" "bogus" ["auto", "low"]))⟩ := by
  exact ((c5_mode_setters_validation witnessSettings emptyTopics
    capabilityFlags rfl "bogus").1 ["auto", "low"] rfl).1 (by decide) emptyTopics

/-- C6 counterexample: on a fresh instance whose capability set lacks ACTION,
`set_action` fails with `KeyError` from the topic-map lookup — which runs
before the capability check — not with the claimed `RuntimeError`. -/
theorem c6_missing_capability_cex :
    Cap.ACTION ∉ [Cap.MODE]
    ∧ set_action modeOnlySettings
        (generate_config modeOnlySettings emptyTopics).2 .OFF
      = ⟨[], some (.keyError "action_topic")⟩ := by
  exact ⟨by decide, by decide⟩

/-- C6 (amended): when the capability for a `set_*` operation is not in the
settings' flag set, the call publishes nothing and raises an error — but the
error is the `RuntimeError` "Action is not configured for this entity!" only
when the state-topic entry for that operation is present in the shared topic
map (and, for the mode setters, the argument passes list validation); on a
fresh map the topic lookup raises `KeyError` first. -/
theorem c6_missing_capability_errors (s : ClimateSetting) (caps : List Cap)
    (hcap : s.capability = some caps) :
    (Cap.ACTION ∉ caps → ∀ (ts : TopicState) (a : Action),
      (set_action s ts a).published = []
      ∧ (set_action s ts a).error.isSome = true
      ∧ (∀ t, dictLookup ts.state_topics "action_topic" = some t →
          set_action s ts a = ⟨[], some (.runtimeError notConfiguredMsg)⟩))
    ∧ (Cap.CURRENT_HUMIDITY ∉ caps → ∀ (ts : TopicState) (x : PyFloat),
      (set_current_humidity s ts x).published = []
      ∧ (set_current_humidity s ts x).error.isSome = true
      ∧ (∀ t, dictLookup ts.state_topics "current_humidity_topic" = some t →
          set_current_humidity s ts x
            = ⟨[], some (.runtimeError notConfiguredMsg)⟩))
    ∧ (Cap.TARGET_HUMIDITY ∉ caps → ∀ (ts : TopicState) (x : PyFloat),
      (set_target_humidity s ts x).published = []
      ∧ (set_target_humidity s ts x).error.isSome = true
      ∧ (∀ t, dictLookup ts.state_topics "target_humidity_state_topic" = some t →
          set_target_humidity s ts x
            = ⟨[], some (.runtimeError notConfiguredMsg)⟩))
    ∧ (Cap.CURRENT_TEMPERATURE ∉ caps → ∀ (ts : TopicState) (x : PyFloat),
      (set_current_temperature s ts x).published = []
      ∧ (set_current_temperature s ts x).error.isSome = true
      ∧ (∀ t, dictLookup ts.state_topics "current_temperature_topic" = some t →
          set_current_temperature s ts x
            = ⟨[], some (.runtimeError notConfiguredMsg)⟩))
    ∧ (Cap.TARGET_TEMPERATURE ∉ caps → ∀ (ts : TopicState) (x : PyFloat),
      (set_target_temperature s ts x).published = []
      ∧ (set_target_temperature s ts x).error.isSome = true
      ∧ (∀ t, dictLookup ts.state_topics "temperature_state_topic" = some t →
          set_target_temperature s ts x
            = ⟨[], some (.runtimeError notConfiguredMsg)⟩))
    ∧ (Cap.TARGET_HIGH_TEMPERATURE ∉ caps → ∀ (ts : TopicState) (x : PyFloat),
      (set_target_high_temperature s ts x).published = []
      ∧ (set_target_high_temperature s ts x).error.isSome = true
      ∧ (∀ t, dictLookup ts.state_topics "temperature_high_state_topic" = some t →
          set_target_high_temperature s ts x
            = ⟨[], some (.runtimeError notConfiguredMsg)⟩))
    ∧ (Cap.TARGET_LOW_TEMPERATURE ∉ caps → ∀ (ts : TopicState) (x : PyFloat),
      (set_target_low_temperature s ts x).published = []
      ∧ (set_target_low_temperature s ts x).error.isSome = true
      ∧ (∀ t, dictLookup ts.state_topics "temperature_low_state_topic" = some t →
          set_target_low_temperature s ts x
            = ⟨[], some (.runtimeError notConfiguredMsg)⟩))
    ∧ (Cap.FAN_MODE ∉ caps → ∀ (ts : TopicState) (m : String),
      (set_fan_mode s ts m).published = []
      ∧ (set_fan_mode s ts m).error.isSome = true
      ∧ (∀ l t, s.entity.fan_modes = some l → m ∈ l →
          dictLookup ts.state_topics "fan_mode_state_topic" = some t →
          set_fan_mode s ts m = ⟨[], some (.runtimeError notConfiguredMsg)⟩))
    ∧ (Cap.MODE ∉ caps → ∀ (ts : TopicState) (m : String),
      (set_mode s ts m).published = []
      ∧ (set_mode s ts m).error.isSome = true
      ∧ (∀ l t, s.entity.modes = some l → m ∈ l →
          dictLookup ts.state_topics "mode_state_topic" = some t →
          set_mode s ts m = ⟨[], some (.runtimeError notConfiguredMsg)⟩))
    ∧ (Cap.PRESET_MODE ∉ caps → ∀ (ts : TopicState) (m : String),
      (set_preset_mode s ts m).published = []
      ∧ (set_preset_mode s ts m).error.isSome = true
      ∧ (∀ l t, s.entity.preset_modes = some l → m ∈ l →
          dictLookup ts.state_topics "preset_mode_state_topic" = some t →
          set_preset_mode s ts m = ⟨[], some (.runtimeError notConfiguredMsg)⟩))
    ∧ (Cap.SWING_MODE ∉ caps → ∀ (ts : TopicState) (m : String),
      (set_swing_mode s ts m).published = []
      ∧ (set_swing_mode s ts m).error.isSome = true
      ∧ (∀ l t, s.entity.swing_modes = some l → m ∈ l →
          dictLookup ts.state_topics "swing_mode_state_topic" = some t →
          set_swing_mode s ts m = ⟨[], some (.runtimeError notConfiguredMsg)⟩)) := by
  refine ⟨?_, ?_, ?_, ?_, ?_, ?_, ?_, ?_, ?_, ?_, ?_⟩
  case _ =>
    intro hc ts a
    cases hlk : dictLookup ts.state_topics "action_topic" with
    | none =>
        have hres : set_action s ts a = ⟨[], some (.keyError "action_topic")⟩ := by
          simp [set_action, hlk]
        refine ⟨by rw [hres], by rw [hres]; rfl, ?_⟩
        intro t ht
        exact Option.noConfusion ht
    | some topic =>
        have hres : set_action s ts a
            = ⟨[], some (.runtimeError notConfiguredMsg)⟩ := by
          simp [set_action, hlk, capability_state_helper, hcap, hc]
        exact ⟨by rw [hres], by rw [hres]; rfl, fun t _ => hres⟩
  case _ =>
    intro hc ts x
    cases hlk : dictLookup ts.state_topics "current_humidity_topic" with
    | none =>
        have hres : set_current_humidity s ts x
            = ⟨[], some (.keyError "current_humidity_topic")⟩ := by
          simp [set_current_humidity, hlk]
        refine ⟨by rw [hres], by rw [hres]; rfl, ?_⟩
        intro t ht
        exact Option.noConfusion ht
    | some topic =>
        have hres : set_current_humidity s ts x
            = ⟨[], some (.runtimeError notConfiguredMsg)⟩ := by
          simp [set_current_humidity, hlk, capability_state_helper, hcap, hc]
        exact ⟨by rw [hres], by rw [hres]; rfl, fun t _ => hres⟩
  case _ =>
    intro hc ts x
    cases hlk : dictLookup ts.state_topics "target_humidity_state_topic" with
    | none =>
        have hres : set_target_humidity s ts x
            = ⟨[], some (.keyError "target_humidity_state_topic")⟩ := by
          simp [set_target_humidity, hlk]
        refine ⟨by rw [hres], by rw [hres]; rfl, ?_⟩
        intro t ht
        exact Option.noConfusion ht
    | some topic =>
        have hres : set_target_humidity s ts x
            = ⟨[], some (.runtimeError notConfiguredMsg)⟩ := by
          simp [set_target_humidity, hlk, capability_state_helper, hcap, hc]
        exact ⟨by rw [hres], by rw [hres]; rfl, fun t _ => hres⟩
  case _ =>
    intro hc ts x
    cases hlk : dictLookup ts.state_topics "current_temperature_topic" with
    | none =>
        have hres : set_current_temperature s ts x
            = ⟨[], some (.keyError "current_temperature_topic")⟩ := by
          simp [set_current_temperature, hlk]
        refine ⟨by rw [hres], by rw [hres]; rfl, ?_⟩
        intro t ht
        exact Option.noConfusion ht
    | some topic =>
        have hres : set_current_temperature s ts x
            = ⟨[], some (.runtimeError notConfiguredMsg)⟩ := by
          simp [set_current_temperature, hlk, capability_state_helper, hcap, hc]
        exact ⟨by rw [hres], by rw [hres]; rfl, fun t _ => hres⟩
  case _ =>
    intro hc ts x
    cases hlk : dictLookup ts.state_topics "temperature_state_topic" with
    | none =>
        have hres : set_target_temperature s ts x
            = ⟨[], some (.keyError "temperature_state_topic")⟩ := by
          simp [set_target_temperature, hlk]
        refine ⟨by rw [hres], by rw [hres]; rfl, ?_⟩
        intro t ht
        exact Option.noConfusion ht
    | some topic =>
        have hres : set_target_temperature s ts x
            = ⟨[], some (.runtimeError notConfiguredMsg)⟩ := by
          simp [set_target_temperature, hlk, capability_state_helper, hcap, hc]
        exact ⟨by rw [hres], by rw [hres]; rfl, fun t _ => hres⟩
  case _ =>
    intro hc ts x
    cases hlk : dictLookup ts.state_topics "temperature_high_state_topic" with
    | none =>
        have hres : set_target_high_temperature s ts x
            = ⟨[], some (.keyError "temperature_high_state_topic")⟩ := by
          simp [set_target_high_temperature, hlk]
        refine ⟨by rw [hres], by rw [hres]; rfl, ?_⟩
        intro t ht
        exact Option.noConfusion ht
    | some topic =>
        have hres : set_target_high_temperature s ts x
            = ⟨[], some (.runtimeError notConfiguredMsg)⟩ := by
          simp [set_target_high_temperature, hlk, capability_state_helper,
            hcap, hc]
        exact ⟨by rw [hres], by rw [hres]; rfl, fun t _ => hres⟩
  case _ =>
    intro hc ts x
    cases hlk : dictLookup ts.state_topics "temperature_low_state_topic" with
    | none =>
        have hres : set_target_low_temperature s ts x
            = ⟨[], some (.keyError "temperature_low_state_topic")⟩ := by
          simp [set_target_low_temperature, hlk]
        refine ⟨by rw [hres], by rw [hres]; rfl, ?_⟩
        intro t ht
        exact Option.noConfusion ht
    | some topic =>
        have hres : set_target_low_temperature s ts x
            = ⟨[], some (.runtimeError notConfiguredMsg)⟩ := by
          simp [set_target_low_temperature, hlk, capability_state_helper,
            hcap, hc]
        exact ⟨by rw [hres], by rw [hres]; rfl, fun t _ => hres⟩
  case _ =>
    intro hc ts m
    cases hfm : s.entity.fan_modes with
    | none =>
        have hres : set_fan_mode s ts m
            = ⟨[], some (.typeError "argument of type NoneType is not iterable")⟩ := by
          simp [set_fan_mode, hfm]
        refine ⟨by rw [hres], by rw [hres]; rfl, ?_⟩
        intro l t hl _ _
        exact Option.noConfusion hl
    | some accepted =>
        by_cases hm : m ∈ accepted
        · cases hlk : dictLookup ts.state_topics "fan_mode_state_topic" with
          | none =>
              have hres : set_fan_mode s ts m
                  = ⟨[], some (.keyError "fan_mode_state_topic")⟩ := by
                simp [set_fan_mode, hfm, hm, hlk]
              refine ⟨by rw [hres], by rw [hres]; rfl, ?_⟩
              intro l t _ _ ht
              exact Option.noConfusion ht
          | some topic =>
              have hres : set_fan_mode s ts m
                  = ⟨[], some (.runtimeError notConfiguredMsg)⟩ := by
                simp [set_fan_mode, hfm, hm, hlk, capability_state_helper,
                  hcap, hc]
              exact ⟨by rw [hres], by rw [hres]; rfl, fun l t _ _ _ => hres⟩
        · have hres : set_fan_mode s ts m
              = ⟨[], some (.runtimeError (invalidValueMsg "fan mode" m accepted))⟩ := by
            simp [set_fan_mode, hfm, hm]
          refine ⟨by rw [hres], by rw [hres]; rfl, ?_⟩
          intro l t hl hml _
          obtain rfl := Option.some.inj hl
          exact absurd hml hm
  case _ =>
    intro hc ts m
    cases hfm : s.entity.modes with
    | none =>
        have hres : set_mode s ts m
            = ⟨[], some (.typeError "argument of type NoneType is not iterable")⟩ := by
          simp [set_mode, hfm]
        refine ⟨by rw [hres], by rw [hres]; rfl, ?_⟩
        intro l t hl _ _
        exact Option.noConfusion hl
    | some accepted =>
        by_cases hm : m ∈ accepted
        · cases hlk : dictLookup ts.state_topics "mode_state_topic" with
          | none =>
              have hres : set_mode s ts m
                  = ⟨[], some (.keyError "mode_state_topic")⟩ := by
                simp [set_mode, hfm, hm, hlk]
              refine ⟨by rw [hres], by rw [hres]; rfl, ?_⟩
              intro l t _ _ ht
              exact Option.noConfusion ht
          | some topic =>
              have hres : set_mode s ts m
                  = ⟨[], some (.runtimeError notConfiguredMsg)⟩ := by
                simp [set_mode, hfm, hm, hlk, capability_state_helper, hcap, hc]
              exact ⟨by rw [hres], by rw [hres]; rfl, fun l t _ _ _ => hres⟩
        · have hres : set_mode s ts m
              = ⟨[], some (.runtimeError (invalidValueMsg "mode" m accepted))⟩ := by
            simp [set_mode, hfm, hm]
          refine ⟨by rw [hres], by rw [hres]; rfl, ?_⟩
          intro l t hl hml _
          obtain rfl := Option.some.inj hl
          exact absurd hml hm
  case _ =>
    intro hc ts m
    cases hfm : s.entity.preset_modes with
    | none =>
        have hres : set_preset_mode s ts m
            = ⟨[], some (.typeError "argument of type NoneType is not iterable")⟩ := by
          simp [set_preset_mode, hfm]
        refine ⟨by rw [hres], by rw [hres]; rfl, ?_⟩
        intro l t hl _ _
        exact Option.noConfusion hl
    | some accepted =>
        by_cases hm : m ∈ accepted
        · cases hlk : dictLookup ts.state_topics "preset_mode_state_topic" with
          | none =>
              have hres : set_preset_mode s ts m
                  = ⟨[], some (.keyError "preset_mode_state_topic")⟩ := by
                simp [set_preset_mode, hfm, hm, hlk]
              refine ⟨by rw [hres], by rw [hres]; rfl, ?_⟩
              intro l t _ _ ht
              exact Option.noConfusion ht
          | some topic =>
              have hres : set_preset_mode s ts m
                  = ⟨[], some (.runtimeError notConfiguredMsg)⟩ := by
                simp [set_preset_mode, hfm, hm, hlk, capability_state_helper,
                  hcap, hc]
              exact ⟨by rw [hres], by rw [hres]; rfl, fun l t _ _ _ => hres⟩
        · have hres : set_preset_mode s ts m
              = ⟨[], some (.runtimeError (invalidValueMsg "preset mode" m accepted))⟩ := by
            simp [set_preset_mode, hfm, hm]
          refine ⟨by rw [hres], by rw [hres]; rfl, ?_⟩
          intro l t hl hml _
          obtain rfl := Option.some.inj hl
          exact absurd hml hm
  case _ =>
    intro hc ts m
    cases hfm : s.entity.swing_modes with
    | none =>
        have hres : set_swing_mode s ts m
            = ⟨[], some (.typeError "argument of type NoneType is not iterable")⟩ := by
          simp [set_swing_mode, hfm]
        refine ⟨by rw [hres], by rw [hres]; rfl, ?_⟩
        intro l t hl _ _
        exact Option.noConfusion hl
    | some accepted =>
        by_cases hm : m ∈ accepted
        · cases hlk : dictLookup ts.state_topics "swing_mode_state_topic" with
          | none =>
              have hres : set_swing_mode s ts m
                  = ⟨[], some (.keyError "swing_mode_state_topic")⟩ := by
                simp [set_swing_mode, hfm, hm, hlk]
              refine ⟨by rw [hres], by rw [hres]; rfl, ?_⟩
              intro l t _ _ ht
              exact Option.noConfusion ht
          | some topic =>
              have hres : set_swing_mode s ts m
                  = ⟨[], some (.runtimeError notConfiguredMsg)⟩ := by
                simp [set_swing_mode, hfm, hm, hlk, capability_state_helper,
                  hcap, hc]
              exact ⟨by rw [hres], by rw [hres]; rfl, fun l t _ _ _ => hres⟩
        · have hres : set_swing_mode s ts m
              = ⟨[], some (.runtimeError (invalidValueMsg "preset mode" m accepted))⟩ := by
            simp [set_swing_mode, hfm, hm]
          refine ⟨by rw [hres], by rw [hres]; rfl, ?_⟩
          intro l t hl hml _
          obtain rfl := Option.some.inj hl
          exact absurd hml hm

/-- Witness for C6 (amended): on an instance without MODE configured but with
the shared map holding a `mode_state_topic` entry from another instance,
`set_mode` with a valid mode raises the "not configured" `RuntimeError` and
publishes nothing. -/
theorem c6_missing_capability_errors_witness :
    set_mode fanOnlySettings
        (generate_config modeOnlySettings emptyTopics).2 "heat"
      = ⟨[], some (.runtimeError notConfiguredMsg)⟩ := by
  have h := c6_missing_capability_errors fanOnlySettings [.FAN_MODE] rfl
  exact (h.2.2.2.2.2.2.2.2.1 (by decide)
      (generate_config modeOnlySettings emptyTopics).2 "heat").2.2
    ["heat"] "hmd/climate/second/state/mode" rfl (by decide) (by decide)

/-- C9: `__init__` installs the default allowed-value lists exactly when the
capability is configured and the entity field is unset (Python-falsy: `None`
or empty): FAN_MODE yields `["auto","low","medium","high"]`, MODE yields
`["auto","off","cool","heat","dry","fan_only"]`, SWING_MODE yields
`["on","off"]`; already-set lists and every other entity field are unchanged
(and with no capability flag value at all the entity is untouched). -/
theorem c9_init_default_modes (s : ClimateSetting) :
    (s.capability = none → climateInitEntity s = s.entity)
    ∧ (∀ caps, s.capability = some caps →
        (climateInitEntity s).fan_modes
          = (if Cap.FAN_MODE ∈ caps ∧ listFalsy s.entity.fan_modes = true
             then some ["auto", "low", "medium", "high"] else s.entity.fan_modes)
        ∧ (climateInitEntity s).modes
          = (if Cap.MODE ∈ caps ∧ listFalsy s.entity.modes = true
             then some ["auto", "off", "cool", "heat", "dry", "fan_only"]
             else s.entity.modes)
        ∧ (climateInitEntity s).swing_modes
          = (if Cap.SWING_MODE ∈ caps ∧ listFalsy s.entity.swing_modes = true
             then some ["on", "off"] else s.entity.swing_modes)
        ∧ (climateInitEntity s).preset_modes = s.entity.preset_modes
        ∧ (climateInitEntity s).component = s.entity.component
        ∧ (climateInitEntity s).name = s.entity.name
        ∧ (climateInitEntity s).temperature_unit = s.entity.temperature_unit
        ∧ (climateInitEntity s).payload_on = s.entity.payload_on
        ∧ (climateInitEntity s).payload_off = s.entity.payload_off) := by
  constructor
  · intro h
    simp [climateInitEntity, h]
  · intro caps hcap
    simp only [climateInitEntity, hcap]
    by_cases h1 : Cap.FAN_MODE ∈ caps ∧ listFalsy s.entity.fan_modes = true <;>
      by_cases h2 : Cap.MODE ∈ caps ∧ listFalsy s.entity.modes = true <;>
        by_cases h3 : Cap.SWING_MODE ∈ caps ∧ listFalsy s.entity.swing_modes = true <;>
          simp [h1, h2, h3]

/-- Witness for C9: FAN_MODE configured with `fan_modes` unset receives the
default list, while the already-set `swing_modes` list survives even though
SWING_MODE is configured. -/
theorem c9_init_default_modes_witness :
    (climateInitEntity defaultsProbeSettings).fan_modes
      = some ["auto", "low", "medium", "high"]
    ∧ (climateInitEntity defaultsProbeSettings).swing_modes = some ["fixed"] := by
  have h := (c9_init_default_modes defaultsProbeSettings).2
    [.FAN_MODE, .SWING_MODE] rfl
  exact ⟨h.1.trans (by decide), h.2.2.1.trans (by decide)⟩

end ClimateModule
